import Mathlib

/-!
Shallow embedding of the storage and cache resilience layer of the
immigration-case-manager backend (src/utils/storage.ts, src/utils/cache.ts,
src/utils/performance.ts and the `/uploads/*` proxy handlers), together with
theorems settling the frozen claims about it.

Conventions of the embedding:
* JavaScript strings become Lean `String`; `str.includes(pat)` becomes
  `strIncludes str pat` (a substring scan defined below); `!!str` truthiness
  on a string becomes `str ≠ ""` (the only falsy string is the empty one).
* Timestamps (`Date.now()`) are threaded explicitly as a `Nat` argument `now`.
* I/O results of the remote backends (S3 put/delete, Redis commands, fetch)
  are passed in as explicit parameters, so each code path of the source is a
  case of a total Lean function.
* Thrown exceptions become `Except`/explicit error constructors.
-/

/-! ## Generic string helpers (JavaScript semantics) -/

/-- `charsHasPfx pat s` is true when `pat` is a prefix of `s` (on char lists). -/
def charsHasPfx : List Char → List Char → Bool
  | [], _ => true
  | _ :: _, [] => false
  | p :: ps, c :: cs => p == c && charsHasPfx ps cs

/-- `charsHasSub pat s` is true when `pat` occurs contiguously inside `s`. -/
def charsHasSub (pat : List Char) : List Char → Bool
  | [] => charsHasPfx pat []
  | c :: cs => charsHasPfx pat (c :: cs) || charsHasSub pat cs

/-- JavaScript `s.includes(pat)`: substring test. -/
def strIncludes (s pat : String) : Bool :=
  charsHasSub pat.data s.data

/-- JavaScript `s.startsWith(pre)`. -/
def strStartsWith (s pre : String) : Bool :=
  charsHasPfx pre.data s.data

/-- JavaScript `s.substring(0, n)` / Lean `take` on the characters. -/
def strTake (s : String) (n : Nat) : String :=
  ⟨s.data.take n⟩

/-- Drop the first `n` characters. -/
def strDrop (s : String) (n : Nat) : String :=
  ⟨s.data.drop n⟩

/-- JavaScript `s.split(sep)` for a one-character separator, on char lists:
accumulates the current segment and cuts at each separator. -/
def splitCharAux (sep : Char) : List Char → List Char → List String
  | [], acc => [⟨acc.reverse⟩]
  | c :: cs, acc =>
    if c == sep then (⟨acc.reverse⟩ : String) :: splitCharAux sep cs []
    else splitCharAux sep cs (c :: acc)

/-- JavaScript `s.split(sep)` for a one-character separator. -/
def strSplitChar (s : String) (sep : Char) : List String :=
  splitCharAux sep s.data []

/-- JavaScript `parts.join(sep)` for a one-character separator. -/
def strJoinChar (sep : Char) : List String → String
  | [] => ""
  | [p] => p
  | p :: ps => p ++ ⟨[sep]⟩ ++ strJoinChar sep ps

/-- One hex digit, as used by percent-decoding. -/
def hexDigitVal (c : Char) : Option Nat :=
  if '0' ≤ c ∧ c ≤ '9' then some (c.toNat - '0'.toNat)
  else if 'a' ≤ c ∧ c ≤ 'f' then some (c.toNat - 'a'.toNat + 10)
  else if 'A' ≤ c ∧ c ≤ 'F' then some (c.toNat - 'A'.toNat + 10)
  else none

/-- Percent-decoding on char lists; `none` models `decodeURIComponent`
throwing `URIError` on a malformed escape. (Multi-byte UTF-8 sequences are
modelled byte-by-byte; the claims only exercise ASCII escapes such as `%20`.) -/
def percentDecodeChars : List Char → Option (List Char)
  | [] => some []
  | '%' :: rest =>
    match rest with
    | h :: l :: rest' =>
      match hexDigitVal h, hexDigitVal l with
      | some hv, some lv =>
        (percentDecodeChars rest').map (fun tail => Char.ofNat (16 * hv + lv) :: tail)
      | _, _ => none
    | _ => none
  | c :: rest => (percentDecodeChars rest).map (fun tail => c :: tail)

/-- Model of `decodeURIComponent`. -/
def decodeURIComponent (s : String) : Option String :=
  (percentDecodeChars s.data).map List.asString

/-! ## Storage backend configuration (src/utils/storage.ts, lines 12-59) -/

/-- The four `RAILWAY_BUCKET_*` environment variables (plus endpoint/region
defaults are irrelevant to the claims). An unset variable is the empty
string, matching `!!process.env.X` truthiness. -/
structure BucketConfig where
  endpoint : String
  bucketName : String
  accessKey : String
  secretKey : String
deriving Repr, DecidableEq

/-- `isRailwayBucketConfigured` (storage.ts line 12): all four variables set. -/
def isRailwayBucketConfigured (c : BucketConfig) : Bool :=
  (c.endpoint ≠ "" : Bool) && (c.bucketName ≠ "" : Bool)
    && (c.accessKey ≠ "" : Bool) && (c.secretKey ≠ "" : Bool)

/-- Placeholder-credential check at client initialization (storage.ts line 40). -/
def hasPlaceholderCredentials (c : BucketConfig) : Bool :=
  strIncludes c.accessKey "YOUR_ACCESS_KEY_ID_HERE"
    || strIncludes c.secretKey "YOUR_SECRET_ACCESS_KEY_HERE"

/-- `s3Client !== null`: the client is created at startup iff the bucket is
configured and the credentials are not placeholders (storage.ts lines 31-59). -/
def s3ClientActive (c : BucketConfig) : Bool :=
  isRailwayBucketConfigured c && !hasPlaceholderCredentials c

/-! ## S3 errors and uploadFile (storage.ts lines 64-146) -/

/-- The fields of an AWS SDK error object that `uploadFile` inspects:
`error.Code`, `error.name`, `error.message`. -/
structure S3Error where
  code : String
  name : String
  message : String
deriving Repr, DecidableEq

/-- The bucket-missing test of storage.ts line 100:
`error.message.includes('does not exist') || error.name === 'NoSuchBucket' || error.Code === 'NoSuchBucket'`. -/
def isMissingBucketError (e : S3Error) : Bool :=
  strIncludes e.message "does not exist" || e.name == "NoSuchBucket" || e.code == "NoSuchBucket"

/-- The access-denied test of storage.ts line 103:
`error.Code === 'AccessDenied' || error.name === 'AccessDenied'`. -/
def isAccessDeniedError (e : S3Error) : Bool :=
  e.code == "AccessDenied" || e.name == "AccessDenied"

/-- `accessKeyPreview` (storage.ts lines 105-107): first 8 characters of the
access key followed by an ellipsis, or `Not set`. -/
def accessKeyPreview (c : BucketConfig) : String :=
  if c.accessKey ≠ "" then strTake c.accessKey 8 ++ "..." else "Not set"

/-- The diagnostic message thrown on access-denied (storage.ts lines 109-119).
It interpolates the bucket name, the endpoint and the masked access-key
preview; the secret key is never read. -/
def accessDeniedMessage (c : BucketConfig) : String :=
  "Access denied to Railway bucket. Configuration:\n- RAILWAY_BUCKET_NAME: "
    ++ c.bucketName
    ++ "\n- RAILWAY_BUCKET_ENDPOINT: "
    ++ (if c.endpoint ≠ "" then c.endpoint else "Not set")
    ++ "\n- RAILWAY_BUCKET_ACCESS_KEY: "
    ++ accessKeyPreview c
    ++ "\n\nPlease verify:\n1. All environment variables are set correctly in Railway\n2. The bucket name matches exactly (case-sensitive)\n3. The access key and secret key are valid and not expired\n4. The bucket has proper read/write permissions\n5. The endpoint URL is correct for your Railway region"

/-- Outcome of the remote `PutObjectCommand`. -/
inductive PutResult where
  | ok
  | err (e : S3Error)
deriving Repr, DecidableEq

/-- Result of `uploadFile`: success via the remote bucket, success via the
local-filesystem fallback (the local write of lines 129-145, which the model
takes as succeeding), or a thrown error. -/
inductive UploadOutcome where
  | okRemote (blobRef : String)
  | okLocal (blobRef : String)
  | error (msg : String)
deriving Repr, DecidableEq

/-- `uploadFile` (storage.ts lines 64-146), with the remote put outcome as a
parameter. Control flow: remote path only when the client is active; on a
put error, the bucket-missing test of line 100 runs first, then the
access-denied test of line 103 (which throws), and every other error falls
through to the local write. -/
def uploadFile (c : BucketConfig) (fileName : String) (put : PutResult) : UploadOutcome :=
  if s3ClientActive c then
    match put with
    | .ok => .okRemote ("/uploads/" ++ fileName)
    | .err e =>
      if isMissingBucketError e then
        .okLocal ("/uploads/" ++ fileName)
      else if isAccessDeniedError e then
        .error (accessDeniedMessage c)
      else
        .okLocal ("/uploads/" ++ fileName)
  else
    .okLocal ("/uploads/" ++ fileName)

/-! ## deleteFile (storage.ts lines 151-193) -/

/-- Outcome of the remote `DeleteObjectCommand`. -/
inductive DeleteRemoteResult where
  | ok
  | err (e : S3Error)
deriving Repr, DecidableEq

/-- `existsSync` on the local path. -/
inductive LocalFileState where
  | present
  | absent
deriving Repr, DecidableEq

/-- Outcome of `unlinkSync`. -/
inductive LocalDeleteResult where
  | ok
  | err
deriving Repr, DecidableEq

/-- What `deleteFile` ended up doing (for the frame/behaviour statements). -/
inductive DeleteAction where
  | ignoredInvalid
  | remoteDeleted
  | remoteErrorSwallowed
  | localDeleted
  | localSkippedMissing
  | localErrorSwallowed
deriving Repr, DecidableEq

/-- `deleteFile` (storage.ts lines 151-193). A thrown exception would be an
`Except.error`; the source catches every remote and local failure, so every
branch below is `Except.ok`. -/
def deleteFile (c : BucketConfig) (fileUrl : String) (remote : DeleteRemoteResult)
    (localState : LocalFileState) (localDel : LocalDeleteResult) :
    Except String DeleteAction :=
  if fileUrl = "" ∨ strStartsWith fileUrl "/uploads/" = false then
    .ok .ignoredInvalid
  else if s3ClientActive c then
    match remote with
    | .ok => .ok .remoteDeleted
    | .err _ => .ok .remoteErrorSwallowed
  else
    match localState with
    | .absent => .ok .localSkippedMissing
    | .present =>
      match localDel with
      | .ok => .ok .localDeleted
      | .err => .ok .localErrorSwallowed

/-! ## Key resolution (storage.ts lines 205-234 of getFileUrl; fileExists
lines 275-291 duplicates the same normalization) -/

/-- The address-normalization shared by `getFileUrl` and `fileExists`:
given any accepted address form, produce `(fileName, bucketKey)`.
Faithful to storage.ts lines 210-234; note that in the `/uploads/`-prefixed
branch the source runs `fileUrl.replace('/uploads/', '')`, which replaces
only the first occurrence — under the `startsWith` guard that occurrence is
the leading prefix, so it equals dropping the first 9 characters. -/
def resolveKey (fileUrl : String) : String × String :=
  if strStartsWith fileUrl "http://" || strStartsWith fileUrl "https://" then
    let urlParts := strSplitChar fileUrl '/'
    let fileName := urlParts.getLastD ""
    match urlParts.findIdx? (fun part => part == "uploads") with
    | some i => (fileName, strJoinChar '/' (urlParts.drop i))
    | none => (fileName, "uploads/" ++ fileName)
  else if strStartsWith fileUrl "/uploads/" then
    let fileName := strDrop fileUrl 9
    (fileName, "uploads/" ++ fileName)
  else
    let last := (strSplitChar fileUrl '/').getLastD ""
    let fileName := if last = "" then fileUrl else last
    (fileName, if strStartsWith fileUrl "uploads/" then fileUrl else "uploads/" ++ fileName)

/-! ## The `/uploads/*` proxy handler (src server entry, express variant
lines 58-166; the fastify variant lines 330-409 has the same structure) -/

/-- The regex `^\/uploads\/(.+)$`: the captured group, or `none` when the
path does not match (at least one character must follow `/uploads/`). -/
def matchUploadsPath (path : String) : Option String :=
  if strStartsWith path "/uploads/" then
    let rest := strDrop path 9
    if rest = "" then none else some rest
  else none

/-- Result of the `fetch` of the signed URL inside the handler. -/
inductive FetchOutcome where
  | ok (contentType : String) (byteLength : Nat)
  | httpErr (status : Nat)
deriving Repr, DecidableEq

/-- An HTTP response of the handler: status plus the JSON body as a
field-name/value association list (an empty list on the streamed-bytes
success path, whose body is the file content, not JSON). -/
structure ProxyResponse where
  status : Nat
  body : List (String × String)
deriving Repr, DecidableEq

/-- The `/uploads/*` proxy handler. The three awaited steps (`fileExists`,
`getFileUrl`, `fetch`) are parameters; `Except.error msg` in a step models
that step throwing, and the handler's `try/catch` turns it into the 500
JSON body of lines 161-164. -/
def proxyHandler (path : String)
    (exists? : Except String Bool)
    (signed : Except String (Option String))
    (fetched : Except String FetchOutcome) : ProxyResponse :=
  match matchUploadsPath path with
  | none => ⟨400, [("error", "Invalid file path")]⟩
  | some raw =>
    let filename := (decodeURIComponent raw).getD raw
    let fileUrl := "/uploads/" ++ filename
    match exists? with
    | .error msg => ⟨500, [("error", "Failed to serve file"), ("details", msg)]⟩
    | .ok false =>
      ⟨404, [("error", "File not found"), ("filename", filename),
             ("requestedUrl", fileUrl),
             ("message", "The requested file does not exist in storage")]⟩
    | .ok true =>
      match signed with
      | .error msg => ⟨500, [("error", "Failed to serve file"), ("details", msg)]⟩
      | .ok none =>
        ⟨500, [("error", "Failed to generate file access URL"), ("filename", filename),
               ("message", "Could not create access URL for the file")]⟩
      | .ok (some url) =>
        match fetched with
        | .error msg => ⟨500, [("error", "Failed to serve file"), ("details", msg)]⟩
        | .ok (.ok _ _) => ⟨200, []⟩
        | .ok (.httpErr _) =>
          if strStartsWith url "http" then
            ⟨404, [("error", "File not found in bucket")]⟩
          else
            ⟨404, [("error", "File not found")]⟩

/-! ## Cache entries and TTL arithmetic (src/utils/cache.ts and the
RedisCache of src/utils/performance.ts) -/

/-- `CacheEntry<T>`: `{ data, expires }` with `expires` an absolute
millisecond timestamp. -/
structure CacheEntry (V : Type) where
  data : V
  expires : Nat
deriving Repr, DecidableEq

/-- `5 * 60 * 1000` milliseconds (cache.ts line 13, performance.ts line 172). -/
def defaultTTL : Nat := 5 * 60 * 1000

/-- JavaScript `ttl || this.defaultTTL` where `ttl` is an optional number:
`undefined` and `0` are both falsy, so both select the default. -/
def effectiveTTLms (ttl : Option Nat) : Nat :=
  match ttl with
  | none => defaultTTL
  | some t => if t = 0 then defaultTTL else t

/-- `Math.ceil(x / 1000)` on a natural number of milliseconds
(performance.ts line 296). -/
def ttlToSeconds (ms : Nat) : Nat := (ms + 999) / 1000

/-! ### The standalone in-memory cache (src/utils/cache.ts, MemoryCache) -/

/-- The `memoryCache : Map` of MemoryCache, as a function map. -/
structure MemCacheState (V : Type) where
  memoryCache : String → Option (CacheEntry V)

/-- Empty map. -/
def mcEmpty (V : Type) : MemCacheState V := ⟨fun _ => none⟩

/-- `Map.set` on a function map. -/
def mapInsert {V : Type} (m : String → Option (CacheEntry V)) (k : String)
    (e : CacheEntry V) : String → Option (CacheEntry V) :=
  fun k' => if k' = k then some e else m k'

/-- `Map.delete` on a function map. -/
def mapErase {V : Type} (m : String → Option (CacheEntry V)) (k : String) :
    String → Option (CacheEntry V) :=
  fun k' => if k' = k then none else m k'

/-- `MemoryCache.get` (cache.ts lines 22-32): missing → null; expired
(`entry.expires < Date.now()`) → delete and null; otherwise the data. -/
def mcGet {V : Type} (s : MemCacheState V) (key : String) (now : Nat) :
    Option V × MemCacheState V :=
  match s.memoryCache key with
  | none => (none, s)
  | some entry =>
    if entry.expires < now then (none, ⟨mapErase s.memoryCache key⟩)
    else (some entry.data, s)

/-- `MemoryCache.set` (cache.ts lines 37-41). -/
def mcSet {V : Type} (s : MemCacheState V) (key : String) (v : V)
    (ttl : Option Nat) (now : Nat) : MemCacheState V :=
  ⟨mapInsert s.memoryCache key ⟨v, now + effectiveTTLms ttl⟩⟩

/-! ### The Redis-backed cache facade (src/utils/performance.ts, RedisCache)

The facade state carries `useRedis` (remote-active vs degraded), the remote
store contents (key ↦ the wire TTL in seconds passed to `setex`, together
with the serialized `{data, expires}` entry — JSON round-tripping is modelled
as the identity), and the in-process `memoryCache` map. A `useRedis = true`
state models `this.useRedis && this.redis` both holding. Each remote command
outcome is a parameter. -/

/-- Did the awaited Redis command succeed or throw? -/
inductive RemoteOutcome where
  | ok
  | err
deriving Repr, DecidableEq

/-- Remote-store function map: key ↦ (ttlSeconds given to `setex`, entry). -/
def RedisStore (V : Type) := String → Option (Nat × CacheEntry V)

/-- State of the RedisCache facade. -/
structure RedisCacheState (V : Type) where
  useRedis : Bool
  redis : RedisStore V
  memoryCache : String → Option (CacheEntry V)

/-- `getFromMemory` (performance.ts lines 274-284): same lazy-expiry logic
as MemoryCache.get, on the facade's memory map. -/
def rcGetFromMemory {V : Type} (s : RedisCacheState V) (key : String) (now : Nat) :
    Option V × RedisCacheState V :=
  match s.memoryCache key with
  | none => (none, s)
  | some entry =>
    if entry.expires < now then (none, { s with memoryCache := mapErase s.memoryCache key })
    else (some entry.data, s)

/-- `RedisCache.get` (performance.ts lines 245-269). In remote mode a
command error sets `useRedis := false` and the very same call is answered by
`getFromMemory`; in remote mode with a working connection the serialized
entry is deserialized and its `expires` checked (remote delete on expiry). -/
def rcGet {V : Type} (s : RedisCacheState V) (key : String) (now : Nat)
    (remote : RemoteOutcome) : Option V × RedisCacheState V :=
  if s.useRedis then
    match remote with
    | .err => rcGetFromMemory { s with useRedis := false } key now
    | .ok =>
      match s.redis key with
      | none => (none, s)
      | some (_, entry) =>
        if entry.expires < now then
          (none, { s with redis := fun k => if k = key then none else s.redis k })
        else (some entry.data, s)
  else rcGetFromMemory s key now

/-- `RedisCache.set` (performance.ts lines 289-308). The entry's `expires`
is `now + (ttl || defaultTTL)`; in remote mode the wire TTL is
`Math.ceil((ttl || defaultTTL) / 1000)` seconds and a successful `setex`
returns without touching memory; a failed `setex` degrades and writes the
entry to the memory map instead. -/
def rcSet {V : Type} (s : RedisCacheState V) (key : String) (v : V)
    (ttl : Option Nat) (now : Nat) (remote : RemoteOutcome) : RedisCacheState V :=
  let entry : CacheEntry V := ⟨v, now + effectiveTTLms ttl⟩
  if s.useRedis then
    match remote with
    | .ok =>
      let ttlSeconds := ttlToSeconds (effectiveTTLms ttl)
      { s with redis := fun k => if k = key then some (ttlSeconds, entry) else s.redis k }
    | .err =>
      { s with useRedis := false, memoryCache := mapInsert s.memoryCache key entry }
  else
    { s with memoryCache := mapInsert s.memoryCache key entry }

/-- `RedisCache.delete` (performance.ts lines 313-326): remote mode deletes
the remote key and returns; a remote error degrades and the deletion is
applied to the memory map instead. -/
def rcDelete {V : Type} (s : RedisCacheState V) (key : String)
    (remote : RemoteOutcome) : RedisCacheState V :=
  if s.useRedis then
    match remote with
    | .ok => { s with redis := fun k => if k = key then none else s.redis k }
    | .err => { s with useRedis := false, memoryCache := mapErase s.memoryCache key }
  else
    { s with memoryCache := mapErase s.memoryCache key }

/-- `RedisCache.clear` (performance.ts lines 331-344). -/
def rcClear {V : Type} (s : RedisCacheState V) (remote : RemoteOutcome) : RedisCacheState V :=
  if s.useRedis then
    match remote with
    | .ok => { s with redis := fun _ => none }
    | .err => { s with useRedis := false, memoryCache := fun _ => none }
  else
    { s with memoryCache := fun _ => none }

/-- The `connect` event handler registered in `initRedis` (performance.ts
lines 227-232): the only transition back to remote-active. -/
def rcConnect {V : Type} (s : RedisCacheState V) : RedisCacheState V :=
  { s with useRedis := true }

/-- One observable event at the facade, for trace-level statements. -/
inductive CacheEvent (V : Type) where
  | get (key : String) (now : Nat) (remote : RemoteOutcome)
  | set (key : String) (v : V) (ttl : Option Nat) (now : Nat) (remote : RemoteOutcome)
  | del (key : String) (remote : RemoteOutcome)
  | clear (remote : RemoteOutcome)
  | connect

/-- Apply one event to the state. -/
def stepCache {V : Type} (s : RedisCacheState V) : CacheEvent V → RedisCacheState V
  | .get key now remote => (rcGet s key now remote).2
  | .set key v ttl now remote => rcSet s key v ttl now remote
  | .del key remote => rcDelete s key remote
  | .clear remote => rcClear s remote
  | .connect => rcConnect s

/-- Run a list of events left to right. -/
def runCache {V : Type} (s : RedisCacheState V) : List (CacheEvent V) → RedisCacheState V
  | [] => s
  | e :: es => runCache (stepCache s e) es

/-- An event is the reconnect signal. -/
def CacheEvent.isConnect {V : Type} : CacheEvent V → Bool
  | .connect => true
  | _ => false

/-! ## Theorems settling the claims -/

/-- C1 (counterexample): the claim quantifies over every access-denied put
failure, but storage.ts line 100 tests the bucket-missing class first, and
that test matches on `error.message` alone. An error whose `Code` and `name`
are both `AccessDenied` but whose message contains `does not exist` is an
access-denied failure for which `uploadFile` silently falls back to the
local write instead of raising. -/
theorem c1_counterexample :
    isAccessDeniedError ⟨"AccessDenied", "AccessDenied", "The specified bucket does not exist"⟩ = true
    ∧ s3ClientActive ⟨"https://ep.example", "case-files", "AKIA1234EXAMPLE", "sk-secret-value"⟩ = true
    ∧ uploadFile ⟨"https://ep.example", "case-files", "AKIA1234EXAMPLE", "sk-secret-value"⟩
        "doc.pdf" (.err ⟨"AccessDenied", "AccessDenied", "The specified bucket does not exist"⟩)
      ≠ .error (accessDeniedMessage ⟨"https://ep.example", "case-files", "AKIA1234EXAMPLE", "sk-secret-value"⟩)
    ∧ uploadFile ⟨"https://ep.example", "case-files", "AKIA1234EXAMPLE", "sk-secret-value"⟩
        "doc.pdf" (.err ⟨"AccessDenied", "AccessDenied", "The specified bucket does not exist"⟩)
      = .okLocal "/uploads/doc.pdf" := by
  refine ⟨by decide, by decide, ?_, ?_⟩
  · intro h
    simp only [uploadFile, show s3ClientActive ⟨"https://ep.example", "case-files",
      "AKIA1234EXAMPLE", "sk-secret-value"⟩ = true from by decide,
      if_true, show isMissingBucketError ⟨"AccessDenied", "AccessDenied",
      "The specified bucket does not exist"⟩ = true from by decide] at h
    exact absurd h (by simp)
  · simp only [uploadFile, show s3ClientActive ⟨"https://ep.example", "case-files",
      "AKIA1234EXAMPLE", "sk-secret-value"⟩ = true from by decide,
      if_true, show isMissingBucketError ⟨"AccessDenied", "AccessDenied",
      "The specified bucket does not exist"⟩ = true from by decide]
    rfl

/-- Associativity of string concatenation (needed to exhibit substrings of
the diagnostic message). -/
theorem strAppendAssoc (a b c : String) : a ++ b ++ c = a ++ (b ++ c) := by
  obtain ⟨la⟩ := a
  obtain ⟨lb⟩ := b
  obtain ⟨lc⟩ := c
  exact congrArg String.mk (List.append_assoc la lb lc)

/-- C1 (amended): when the remote client is active and the put fails with an
access-denied error that is not also classified as bucket-missing (the
bucket-missing test runs first), `uploadFile` raises; the raised message
contains the bucket name and the masked access-key preview (first 8
characters plus an ellipsis), and the message is the same whatever the
secret key is — the secret never reaches it. -/
theorem c1_upload_access_denied_raises_redacted
    (c : BucketConfig) (fn : String) (e : S3Error)
    (hact : s3ClientActive c = true)
    (had : isAccessDeniedError e = true)
    (hnmb : isMissingBucketError e = false) :
    uploadFile c fn (.err e) = .error (accessDeniedMessage c)
    ∧ (∃ p q : String, accessDeniedMessage c = p ++ c.bucketName ++ q)
    ∧ (∃ p q : String, accessDeniedMessage c = p ++ (strTake c.accessKey 8 ++ "...") ++ q)
    ∧ ∀ sk : String, accessDeniedMessage { c with secretKey := sk } = accessDeniedMessage c := by
  have hak : c.accessKey ≠ "" := by
    simp only [s3ClientActive, isRailwayBucketConfigured, Bool.and_eq_true,
      decide_eq_true_eq] at hact
    exact hact.1.1.2
  refine ⟨?_, ?_, ?_, fun _ => rfl⟩
  · simp [uploadFile, hact, hnmb, had]
  · refine ⟨"Access denied to Railway bucket. Configuration:\n- RAILWAY_BUCKET_NAME: ",
      "\n- RAILWAY_BUCKET_ENDPOINT: "
        ++ (if c.endpoint ≠ "" then c.endpoint else "Not set")
        ++ "\n- RAILWAY_BUCKET_ACCESS_KEY: "
        ++ accessKeyPreview c
        ++ "\n\nPlease verify:\n1. All environment variables are set correctly in Railway\n2. The bucket name matches exactly (case-sensitive)\n3. The access key and secret key are valid and not expired\n4. The bucket has proper read/write permissions\n5. The endpoint URL is correct for your Railway region", ?_⟩
    simp only [accessDeniedMessage, strAppendAssoc]
  · refine ⟨"Access denied to Railway bucket. Configuration:\n- RAILWAY_BUCKET_NAME: "
        ++ c.bucketName
        ++ "\n- RAILWAY_BUCKET_ENDPOINT: "
        ++ (if c.endpoint ≠ "" then c.endpoint else "Not set")
        ++ "\n- RAILWAY_BUCKET_ACCESS_KEY: ",
      "\n\nPlease verify:\n1. All environment variables are set correctly in Railway\n2. The bucket name matches exactly (case-sensitive)\n3. The access key and secret key are valid and not expired\n4. The bucket has proper read/write permissions\n5. The endpoint URL is correct for your Railway region", ?_⟩
    simp only [accessDeniedMessage, accessKeyPreview, if_pos hak, strAppendAssoc]

/-- C1 witness: a concrete active configuration and a pure access-denied
error make `uploadFile` raise the redacted diagnostic. -/
theorem c1_upload_access_denied_witness :
    uploadFile ⟨"https://ep.example", "case-files", "AKIA1234EXAMPLE", "sk-secret-value"⟩
        "doc.pdf" (.err ⟨"AccessDenied", "AccessDenied", "Access Denied"⟩)
      = .error (accessDeniedMessage ⟨"https://ep.example", "case-files", "AKIA1234EXAMPLE", "sk-secret-value"⟩) :=
  (c1_upload_access_denied_raises_redacted
    ⟨"https://ep.example", "case-files", "AKIA1234EXAMPLE", "sk-secret-value"⟩
    "doc.pdf" ⟨"AccessDenied", "AccessDenied", "Access Denied"⟩
    (by decide) (by decide) (by decide)).1

/-- C2: whenever the remote client is inactive (a missing configuration
field or placeholder credentials), or the put fails with any error other
than access-denied (the bucket-missing class included), `uploadFile`
completes through the local filesystem write and returns the root-relative
`/uploads/<fileName>` reference without raising. -/
theorem c2_upload_falls_back_locally
    (c : BucketConfig) (fn : String) (put : PutResult)
    (_hfn : fn ≠ "")
    (h : s3ClientActive c = false
      ∨ ∃ e, put = .err e ∧ isAccessDeniedError e = false) :
    uploadFile c fn put = .okLocal ("/uploads/" ++ fn) := by
  rcases h with h | ⟨e, rfl, he⟩
  · simp [uploadFile, h]
  · by_cases hact : s3ClientActive c = true
    · by_cases hmb : isMissingBucketError e = true
      · simp [uploadFile, hact, hmb]
      · simp [uploadFile, hact, hmb, he]
    · simp [uploadFile, hact]

/-- C2 witness: an entirely empty remote configuration uploads via the
local path. -/
theorem c2_upload_falls_back_witness :
    uploadFile ⟨"", "", "", ""⟩ "brief.pdf" .ok = .okLocal ("/uploads/" ++ "brief.pdf") :=
  c2_upload_falls_back_locally ⟨"", "", "", ""⟩ "brief.pdf" .ok (by decide)
    (Or.inl (by decide))

/-- C5 (counterexample): the key resolution of `getFileUrl`/`fileExists`
never percent-decodes. `resolve("/uploads/a%20b.pdf")` yields the raw
fileName `a%20b.pdf` and raw key `uploads/a%20b.pdf` — neither the decoded
canonical key `uploads/a b.pdf` nor the decoded fileName `a b.pdf` the
claim demands. -/
theorem c5_counterexample :
    resolveKey "/uploads/a%20b.pdf" = ("a%20b.pdf", "uploads/a%20b.pdf")
    ∧ ("uploads/a%20b.pdf" : String) ≠ "uploads/a b.pdf"
    ∧ ("a%20b.pdf" : String) ≠ "a b.pdf" := by decide

/-- C5 (amended): the three accepted address forms for the same file all
resolve to the same fileName and the same canonical key, but in raw
(percent-encoded) form; percent-decoding happens earlier, in the proxy
handler (`decodeURIComponent` before resolution), not inside key
resolution. -/
theorem c5_resolution_same_raw_key :
    resolveKey "https://host/bucket/uploads/a%20b.pdf" = ("a%20b.pdf", "uploads/a%20b.pdf")
    ∧ resolveKey "/uploads/a%20b.pdf" = ("a%20b.pdf", "uploads/a%20b.pdf")
    ∧ resolveKey "a%20b.pdf" = ("a%20b.pdf", "uploads/a%20b.pdf")
    ∧ decodeURIComponent "a%20b.pdf" = some "a b.pdf" := by decide

/-- C6: `deleteFile` never throws — every combination of reference string,
remote deletion outcome and local filesystem state yields an `Except.ok` —
and an empty or out-of-namespace reference is silently ignored. -/
theorem c6_delete_never_throws
    (c : BucketConfig) (fileUrl : String) (remote : DeleteRemoteResult)
    (ls : LocalFileState) (ld : LocalDeleteResult) :
    (∃ a, deleteFile c fileUrl remote ls ld = .ok a)
    ∧ ((fileUrl = "" ∨ strStartsWith fileUrl "/uploads/" = false) →
        deleteFile c fileUrl remote ls ld = .ok .ignoredInvalid) := by
  constructor
  · unfold deleteFile
    split
    · exact ⟨_, rfl⟩
    · split
      · cases remote <;> exact ⟨_, rfl⟩
      · cases ls
        · cases ld <;> exact ⟨_, rfl⟩
        · exact ⟨_, rfl⟩
  · intro h
    unfold deleteFile
    rw [if_pos h]

/-- C6 witness: a reference outside the `/uploads/` namespace is ignored
even when both backends would fail. -/
theorem c6_delete_never_throws_witness :
    deleteFile ⟨"", "", "", ""⟩ "C:archive.pdf" (.err ⟨"x", "y", "z"⟩) .absent .err
      = .ok .ignoredInvalid :=
  (c6_delete_never_throws ⟨"", "", "", ""⟩ "C:archive.pdf" (.err ⟨"x", "y", "z"⟩) .absent .err).2
    (Or.inr (by decide))

/-- C4 (counterexample): the lazy-expiry test is strict
(`entry.expires < Date.now()`), so at the exact instant `now = expiresAt`
the entry is still returned: after `set("k", 7, 100)` at time 0, `get` at
time 100 (`now ≥ expiresAt`) returns `7`, not null as the claim demands. -/
theorem c4_counterexample :
    (mcSet (mcEmpty Nat) "k" 7 (some 100) 0).memoryCache "k" = some ⟨7, 100⟩
    ∧ (100 : Nat) ≥ 100
    ∧ (mcGet (mcSet (mcEmpty Nat) "k" 7 (some 100) 0) "k" 100).1 = some 7 := by
  refine ⟨by decide, by decide, by decide⟩

/-- C4 (amended): `get(k)` immediately after `set(k, v, t)` returns `v`;
`get(k)` at any time strictly after `expiresAt` returns null and lazily
deletes the entry; and at `now = expiresAt` exactly, the entry is still
returned (the expiry comparison is strict). -/
theorem c4_cache_ttl_semantics {V : Type} (s : MemCacheState V) (k : String)
    (v : V) (ttl : Option Nat) (now : Nat) :
    (mcGet (mcSet s k v ttl now) k now).1 = some v
    ∧ (∀ e now', s.memoryCache k = some e → e.expires < now' →
        mcGet s k now' = (none, ⟨mapErase s.memoryCache k⟩))
    ∧ (∀ e, s.memoryCache k = some e → (mcGet s k e.expires).1 = some e.data) := by
  refine ⟨?_, ?_, ?_⟩
  · have h : ¬ (now + effectiveTTLms ttl < now) := by omega
    simp [mcGet, mcSet, mapInsert, h]
  · intro e now' he hlt
    simp [mcGet, he, hlt]
  · intro e he
    simp [mcGet, he]

/-- C4 witness: with an entry of `expiresAt = 100` in the map, `get` at
time 101 returns null and deletes the entry. -/
theorem c4_cache_ttl_witness :
    mcGet (mcSet (mcEmpty Nat) "k" 7 (some 100) 0) "k" 101
      = (none, ⟨mapErase (mcSet (mcEmpty Nat) "k" 7 (some 100) 0).memoryCache "k"⟩) :=
  (c4_cache_ttl_semantics (mcSet (mcEmpty Nat) "k" 7 (some 100) 0) "k" 7 (some 100) 0).2.1
    ⟨7, 100⟩ 101 (by decide) (by decide)

/-- C10: a TTL argument of `0` is falsy in `ttl || this.defaultTTL`, so
`set(k, v, 0)` stores the entry with the default 5-minute (300000 ms)
lifetime in both caches — in the Redis facade the wire TTL is 300 seconds —
and an immediate `get(k)` returns `v` rather than an expired null. -/
theorem c10_zero_ttl_uses_default {V : Type} (s : MemCacheState V)
    (rs : RedisCacheState V) (k : String) (v : V) (now : Nat) :
    (mcSet s k v (some 0) now).memoryCache k = some ⟨v, now + 300000⟩
    ∧ (mcGet (mcSet s k v (some 0) now) k now).1 = some v
    ∧ (rs.useRedis = false →
        (rcSet rs k v (some 0) now .ok).memoryCache k = some ⟨v, now + 300000⟩)
    ∧ (rs.useRedis = true →
        (rcSet rs k v (some 0) now .ok).redis k = some (300, ⟨v, now + 300000⟩)) := by
  have heff : effectiveTTLms (some 0) = 300000 := by decide
  refine ⟨?_, ?_, ?_, ?_⟩
  · simp [mcSet, mapInsert, heff]
  · have h : ¬ (now + effectiveTTLms (some 0) < now) := by omega
    simp [mcGet, mcSet, mapInsert, h]
  · intro hr
    simp [rcSet, hr, mapInsert, heff]
  · intro hr
    simp [rcSet, hr, heff, ttlToSeconds]

/-- C10 witness: concrete zero-TTL set in remote mode writes a 300-second
wire TTL and a 5-minute entry. -/
theorem c10_zero_ttl_witness :
    (rcSet (⟨true, fun _ => none, fun _ => none⟩ : RedisCacheState Nat)
        "stats" 3 (some 0) 1000 .ok).redis "stats"
      = some (300, ⟨3, 1000 + 300000⟩) :=
  (c10_zero_ttl_uses_default (mcEmpty Nat) ⟨true, fun _ => none, fun _ => none⟩
    "stats" 3 1000).2.2.2 rfl

/-- C8: in remote-active mode a successful `set` stores, at the written key,
a wire TTL of `Math.ceil(ttlMs / 1000)` seconds alongside the entry;
`ttlToSeconds` is exactly the ceiling of the division (least number of whole
seconds covering the millisecond lifetime); and an omitted TTL means a
300000 ms entry lifetime and a 300-second wire TTL. -/
theorem c8_wire_ttl_ceiling {V : Type} (s : RedisCacheState V) (k : String)
    (v : V) (ttl : Option Nat) (now : Nat) (hr : s.useRedis = true) :
    (rcSet s k v ttl now .ok).redis k
        = some (ttlToSeconds (effectiveTTLms ttl), ⟨v, now + effectiveTTLms ttl⟩)
    ∧ (∀ ms : Nat, ms ≤ 1000 * ttlToSeconds ms
        ∧ ∀ n : Nat, ms ≤ 1000 * n → ttlToSeconds ms ≤ n)
    ∧ effectiveTTLms none = 300000
    ∧ ttlToSeconds (effectiveTTLms none) = 300 := by
  refine ⟨?_, ?_, by decide, by decide⟩
  · simp [rcSet, hr]
  · intro ms
    constructor
    · unfold ttlToSeconds
      omega
    · intro n hn
      unfold ttlToSeconds
      omega

/-- C8 witness: a default-TTL set in remote-active mode writes wire TTL
`ttlToSeconds (effectiveTTLms none)` seconds. -/
theorem c8_wire_ttl_witness :
    (rcSet (⟨true, fun _ => none, fun _ => none⟩ : RedisCacheState Nat)
        "dash" 1 none 0 .ok).redis "dash"
      = some (ttlToSeconds (effectiveTTLms none), ⟨1, 0 + effectiveTTLms none⟩) :=
  (c8_wire_ttl_ceiling ⟨true, fun _ => none, fun _ => none⟩ "dash" 1 none 0 rfl).1

/-- C9: in remote-active mode a successful `set` or `delete` touches only
the remote store — the in-process memory map is untouched — and therefore a
still-unexpired entry placed in the memory map earlier survives remote-mode
writes and deletes of the same key and is returned by a `get` that degrades
on a remote error. -/
theorem c9_remote_ops_leave_memory_unchanged {V : Type} (s : RedisCacheState V)
    (k : String) (v : V) (ttl : Option Nat) (now now' : Nat)
    (hr : s.useRedis = true) :
    (rcSet s k v ttl now .ok).memoryCache = s.memoryCache
    ∧ (rcDelete s k .ok).memoryCache = s.memoryCache
    ∧ (∀ e, s.memoryCache k = some e → ¬ e.expires < now' →
        (rcGet (rcDelete (rcSet s k v ttl now .ok) k .ok) k now' .err).1 = some e.data) := by
  refine ⟨?_, ?_, ?_⟩
  · simp [rcSet, hr]
  · simp [rcDelete, hr]
  · intro e he hne
    simp [rcSet, rcDelete, rcGet, rcGetFromMemory, hr, he, hne]

/-- C9 witness: an entry stored in the memory map survives a remote-mode
set and delete of its key and is served after a degrade. -/
theorem c9_memory_survives_witness :
    (rcGet (rcDelete (rcSet (⟨true, fun _ => none,
          fun k => if k = "cases" then some ⟨9, 50⟩ else none⟩ : RedisCacheState Nat)
        "cases" 1 none 0 .ok) "cases" .ok) "cases" 10 .err).1 = some 9 :=
  (c9_remote_ops_leave_memory_unchanged
    ⟨true, fun _ => none, fun k => if k = "cases" then some ⟨9, 50⟩ else none⟩
    "cases" 1 none 0 10 rfl).2.2 ⟨9, 50⟩ (by simp) (by decide)

/-- Helper: `getFromMemory` only ever touches the memory map — the mode flag
and the remote store are preserved. -/
theorem rcGetFromMemory_frame {V : Type} (s : RedisCacheState V) (k : String)
    (now : Nat) :
    ((rcGetFromMemory s k now).2).useRedis = s.useRedis
    ∧ ((rcGetFromMemory s k now).2).redis = s.redis := by
  unfold rcGetFromMemory
  cases hmk : s.memoryCache k with
  | none => exact ⟨rfl, rfl⟩
  | some entry =>
    by_cases h : entry.expires < now
    · simp [h]
    · simp [h]

/-- Helper: in the degraded state, one non-connect event keeps the facade
degraded and leaves the remote store untouched. -/
theorem stepCache_degraded {V : Type} (s : RedisCacheState V) (e : CacheEvent V)
    (hs : s.useRedis = false) (he : e.isConnect = false) :
    (stepCache s e).useRedis = false ∧ (stepCache s e).redis = s.redis := by
  cases e with
  | get key now remote =>
    have hf := rcGetFromMemory_frame s key now
    simp only [stepCache, rcGet, hs, Bool.false_eq_true, if_false]
    exact ⟨hf.1.trans hs, hf.2⟩
  | set key v ttl now remote =>
    simp [stepCache, rcSet, hs]
  | del key remote =>
    simp [stepCache, rcDelete, hs]
  | clear remote =>
    simp [stepCache, rcClear, hs]
  | connect =>
    simp [CacheEvent.isConnect] at he

/-- Helper: a connect-free trace started in the degraded state stays in the
degraded state and never writes to the remote store. -/
theorem runCache_degraded {V : Type} (evs : List (CacheEvent V)) :
    ∀ s : RedisCacheState V, s.useRedis = false →
      (∀ e ∈ evs, e.isConnect = false) →
      (runCache s evs).useRedis = false ∧ (runCache s evs).redis = s.redis := by
  induction evs with
  | nil =>
    intro s hs _
    exact ⟨hs, rfl⟩
  | cons e es ih =>
    intro s hs hnc
    have he : e.isConnect = false := hnc e (by simp)
    have hstep := stepCache_degraded s e hs he
    have hrest := ih (stepCache s e) hstep.1 (fun e' h' => hnc e' (by simp [h']))
    exact ⟨hrest.1, hrest.2.trans hstep.2⟩

/-- C3: in the remote-active state a remote error on `get` degrades the
facade and the very same call is answered from the in-process memory map
(`rcGetFromMemory` on the degraded state); a remote error on `set` or
`delete` degrades and applies the operation to the memory map; once
degraded, every connect-free trace of operations — successful remote
outcomes included — stays degraded and never touches the remote store; and
the explicit reconnect signal is what restores remote mode. -/
theorem c3_cache_degrade_sticky {V : Type} (s : RedisCacheState V) (k : String)
    (v : V) (ttl : Option Nat) (now : Nat) (evs : List (CacheEvent V))
    (hr : s.useRedis = true)
    (hnc : ∀ e ∈ evs, e.isConnect = false) :
    (rcGet s k now .err = rcGetFromMemory { s with useRedis := false } k now
      ∧ ((rcGet s k now .err).2).useRedis = false)
    ∧ rcSet s k v ttl now .err
        = { s with useRedis := false,
                   memoryCache := mapInsert s.memoryCache k ⟨v, now + effectiveTTLms ttl⟩ }
    ∧ rcDelete s k .err
        = { s with useRedis := false, memoryCache := mapErase s.memoryCache k }
    ∧ (∀ s' : RedisCacheState V, s'.useRedis = false →
        (runCache s' evs).useRedis = false ∧ (runCache s' evs).redis = s'.redis)
    ∧ (rcConnect (runCache { s with useRedis := false } evs)).useRedis = true := by
  refine ⟨⟨?_, ?_⟩, ?_, ?_, ?_, rfl⟩
  · simp [rcGet, hr]
  · have hf := rcGetFromMemory_frame { s with useRedis := false } k now
    simp only [rcGet, hr, if_true]
    exact hf.1
  · simp [rcSet, hr]
  · simp [rcDelete, hr]
  · intro s' hs'
    exact runCache_degraded evs s' hs' hnc

/-- C3 witness: a concrete remote-active facade degrades on a failed `get`,
stays degraded across a successful-remote-outcome trace, and only the
reconnect signal restores remote mode. -/
theorem c3_cache_degrade_witness :
    ((rcGet (⟨true, fun _ => none, fun _ => none⟩ : RedisCacheState Nat)
        "k" 0 .err).2).useRedis = false :=
  (c3_cache_degrade_sticky (⟨true, fun _ => none, fun _ => none⟩ : RedisCacheState Nat)
    "k" 1 none 0 [.get "k" 1 .ok, .set "k" 2 none 1 .ok] rfl
    (by intro e he; simp at he; rcases he with h | h <;> subst h <;> rfl)).1.2

/-- C7: for any request path in the `/uploads/*` namespace, a nonexistent
file yields status 404 with a JSON body carrying the `error`, `filename` and
`requestedUrl` fields; a null access URL yields a structured 500 JSON body;
and a throw in any of the three awaited steps (`fileExists`, `getFileUrl`,
`fetch`) is converted by the handler into a 500 JSON body — never a bodyless
response. -/
theorem c7_proxy_error_shapes (path raw : String)
    (hm : matchUploadsPath path = some raw)
    (signed : Except String (Option String))
    (fetched : Except String FetchOutcome) :
    ((proxyHandler path (.ok false) signed fetched).status = 404
      ∧ ((proxyHandler path (.ok false) signed fetched).body.lookup "error").isSome
      ∧ ((proxyHandler path (.ok false) signed fetched).body.lookup "filename").isSome
      ∧ ((proxyHandler path (.ok false) signed fetched).body.lookup "requestedUrl").isSome)
    ∧ ((proxyHandler path (.ok true) (.ok none) fetched).status = 500
      ∧ (proxyHandler path (.ok true) (.ok none) fetched).body ≠ [])
    ∧ (∀ msg, (proxyHandler path (.error msg) signed fetched).status = 500
      ∧ (proxyHandler path (.error msg) signed fetched).body
          = [("error", "Failed to serve file"), ("details", msg)])
    ∧ (∀ msg, (proxyHandler path (.ok true) (.error msg) fetched).status = 500
      ∧ (proxyHandler path (.ok true) (.error msg) fetched).body
          = [("error", "Failed to serve file"), ("details", msg)])
    ∧ (∀ msg url, (proxyHandler path (.ok true) (.ok (some url)) (.error msg)).status = 500
      ∧ (proxyHandler path (.ok true) (.ok (some url)) (.error msg)).body
          = [("error", "Failed to serve file"), ("details", msg)]) := by
  refine ⟨?_, ?_, ?_, ?_, ?_⟩
  · simp [proxyHandler, hm, List.lookup]
  · simp [proxyHandler, hm]
  · intro msg
    simp [proxyHandler, hm]
  · intro msg
    simp [proxyHandler, hm]
  · intro msg url
    simp [proxyHandler, hm]

/-- C7 witness: a request for a nonexistent file gets the 404 JSON shape. -/
theorem c7_proxy_witness :
    (proxyHandler "/uploads/missing.pdf" (.ok false) (.ok none)
        (.ok (.httpErr 500))).status = 404 :=
  (c7_proxy_error_shapes "/uploads/missing.pdf" "missing.pdf" (by decide)
    (.ok none) (.ok (.httpErr 500))).1.1
